import Mathlib

/-!
Verification of the resume-analysis backend (src/backend/main.py and
src/backend/api/parser.py): a shallow embedding of the ATS scoring,
provider-call and PDF-extraction logic, with theorems settling the
specification's claims about it.

Numbers: Python floats are modelled as rationals (every value this program
produces is an exact multiple of 1/2, so no floating-point rounding ever
occurs).  Python's `round(x, 1)` is modelled with Mathlib's `round`; the two
agree at every value reachable here because `10 * x` is always an integer
(they differ only at exact ties, which cannot arise).
-/

/-! ## Substring matching

Python's `needle in haystack` test on strings is substring containment.
`leadSeg n h` is `h.startswith(n)`, `subOcc n h` is `n in h`, both over
explicit character lists. -/

/-- `leadSeg n h = true` iff the character list `n` is a leading segment
of `h` (Python `h.startswith(n)`). -/
def leadSeg : List Char → List Char → Bool
  | [], _ => true
  | _ :: _, [] => false
  | a :: as, b :: bs => a == b && leadSeg as bs

/-- `subOcc n h = true` iff `n` occurs contiguously inside `h`
(Python `n in h`). -/
def subOcc (n : List Char) : List Char → Bool
  | [] => leadSeg n []
  | c :: t => leadSeg n (c :: t) || subOcc n t

/-- The mathematical statement that `n` occurs contiguously inside `h`. -/
def IsSubstr (n h : List Char) : Prop := ∃ l r, h = l ++ n ++ r

theorem leadSeg_iff (n h : List Char) : leadSeg n h = true ↔ ∃ r, h = n ++ r := by
  induction n generalizing h with
  | nil => simp [leadSeg]
  | cons a as ih =>
    cases h with
    | nil => simp [leadSeg]
    | cons b bs =>
      simp only [leadSeg, Bool.and_eq_true, beq_iff_eq, ih, List.cons_append,
        List.cons.injEq]
      constructor
      · rintro ⟨rfl, r, rfl⟩; exact ⟨r, rfl, rfl⟩
      · rintro ⟨r, rfl, rfl⟩; exact ⟨rfl, r, rfl⟩

theorem subOcc_iff (n h : List Char) : subOcc n h = true ↔ IsSubstr n h := by
  induction h with
  | nil =>
    simp only [subOcc, leadSeg_iff, IsSubstr]
    constructor
    · rintro ⟨r, hr⟩; exact ⟨[], r, by simpa using hr⟩
    · rintro ⟨l, r, hlr⟩
      obtain ⟨hl, hn, hr⟩ : l = [] ∧ n = [] ∧ r = [] := by
        simpa [List.append_eq_nil] using hlr.symm
      exact ⟨[], by simp [hn]⟩
  | cons c t ih =>
    simp only [subOcc, Bool.or_eq_true, leadSeg_iff, ih, IsSubstr]
    constructor
    · rintro (⟨r, hr⟩ | ⟨l, r, rfl⟩)
      · exact ⟨[], r, by simpa using hr⟩
      · exact ⟨c :: l, r, rfl⟩
    · rintro ⟨l, r, hlr⟩
      cases l with
      | nil => exact Or.inl ⟨r, by simpa using hlr⟩
      | cons x xs =>
        right
        simp only [List.cons_append, List.cons.injEq] at hlr
        exact ⟨xs, r, hlr.2⟩

instance (n h : List Char) : Decidable (IsSubstr n h) :=
  decidable_of_iff (subOcc n h = true) (subOcc_iff n h)

theorem decide_IsSubstr (n h : List Char) :
    decide (IsSubstr n h) = subOcc n h := by
  by_cases hs : IsSubstr n h
  · simp [hs, (subOcc_iff n h).mpr hs]
  · simp only [hs, decide_False]
    rcases hb : subOcc n h with _ | _
    · rfl
    · exact absurd ((subOcc_iff n h).mp hb) hs

/-- A needle holding a non-whitespace character never occurs inside an
all-whitespace haystack. -/
theorem no_occ_of_ws (hay n : List Char)
    (hh : ∀ c ∈ hay, c.isWhitespace = true)
    (hn : ∃ c ∈ n, c.isWhitespace = false) : subOcc n hay = false := by
  rcases hb : subOcc n hay with _ | _
  · rfl
  · exfalso
    rcases (subOcc_iff n hay).mp hb with ⟨l, r, rfl⟩
    rcases hn with ⟨c, hc, hcw⟩
    have : c.isWhitespace = true := hh c (by simp [hc])
    rw [this] at hcw
    simp at hcw

/-! ## Rounding and clamping

`round1 q` models Python's `round(q, 1)`; `clamp_round` models
`max(0, min(100, round(score, 1)))` (src/backend/main.py line 142). -/

/-- Python `round(q, 1)`: round `10 * q` to an integer and divide by ten. -/
def round1 (q : ℚ) : ℚ := ((round (10 * q) : ℤ) : ℚ) / 10

/-- `max(0, min(100, round(score, 1)))` — the final clamp of the scorer. -/
def clamp_round (q : ℚ) : ℚ := max 0 (min 100 (round1 q))

theorem clamp_round_nonneg (q : ℚ) : 0 ≤ clamp_round q := le_max_left 0 _

theorem clamp_round_le_100 (q : ℚ) : clamp_round q ≤ 100 :=
  max_le (by norm_num) (min_le_left _ _)

/-- The clamped, rounded score is an integer number of tenths. -/
theorem clamp_round_tenths (q : ℚ) : ∃ n : ℤ, clamp_round q = (n : ℚ) / 10 := by
  unfold clamp_round
  rcases le_total (round1 q) 0 with h0 | h0
  · refine ⟨0, ?_⟩
    rw [min_eq_right (le_trans h0 (by norm_num)), max_eq_left h0]
    norm_num
  · rcases le_total (100 : ℚ) (round1 q) with h1 | h1
    · refine ⟨1000, ?_⟩
      rw [min_eq_left h1, max_eq_right (by norm_num)]
      norm_num
    · refine ⟨round (10 * q), ?_⟩
      rw [min_eq_right h1, max_eq_right h0]
      rfl

/-- When `10 * q` is already an integer, rounding changes nothing. -/
theorem round1_int (n : ℤ) (q : ℚ) (h : 10 * q = (n : ℚ)) :
    round1 q = q := by
  unfold round1
  rw [h, round_intCast, h.symm]
  ring

/-! ## The heuristic resume scorer

The spec's §4.1 documents a local heuristic text scorer present in the
repository's other `main.py` revisions; the staged sources hold only the
Affinda-based revision (and `src/backend/api/parser.py` is truncated right
where its scoring body would begin), so this component is modelled from the
spec's words.  Implemented variant, as the spec instructs one to pick and
document: the 8-keyword section list at 5.0 points per hit, ideal word band
300–800 at +10 with −5 above 800, contact bonus +10. -/

/-- Modelled from the spec: the heuristic scorer's output value object
(§3 ScoreResult); the scorer's body is missing from the staged sources. -/
structure ScoreResult where
  score : ℚ
  sections_found : List String
  word_count : Nat
  has_contact_info : Bool
  note : String
deriving DecidableEq

/-- Modelled from the spec: `text.lower()` as a character list (per-character
lowering; the heuristic only ever matches ASCII keywords). -/
def pyLower (t : String) : List Char := t.toList.map Char.toLower

/-- Modelled from the spec: the fixed ordered section keyword list of the
8-keyword variant. -/
def section_keywords : List String :=
  ["experience", "education", "skills", "projects", "summary", "objective",
   "work", "employment"]

/-- Modelled from the spec: the fixed contact token set. -/
def contact_tokens : List String :=
  ["@", "phone", "email", "linkedin", "github", "contact"]

/-- Modelled from the spec: the fixed action-verb list. -/
def action_verbs : List String :=
  ["managed", "developed", "created", "led", "implemented", "achieved",
   "improved"]

/-- Counts maximal non-whitespace runs; `inw` records whether the previous
character was inside a word. -/
def wcAux : List Char → Bool → Nat
  | [], _ => 0
  | c :: t, inw =>
    if c.isWhitespace then wcAux t false
    else (if inw then 0 else 1) + wcAux t true

/-- Modelled from the spec: `len(text.split())` — the number of
whitespace-separated tokens. -/
def word_count (t : String) : Nat := wcAux t.toList false

/-- Modelled from the spec: the word-count band adjustment (300–800 ideal
band +10, above 800 a −5 penalty, otherwise no adjustment; first matching
band wins and 0 falls below every band). -/
def band_bonus (wc : Nat) : ℚ :=
  if 300 ≤ wc ∧ wc ≤ 800 then 10 else if 800 < wc then -5 else 0

/-- Modelled from the spec: the section pass — keywords of the fixed list
found in the lower-cased text, in list order. -/
def sections_of (t : String) : List String :=
  section_keywords.filter (fun k => subOcc k.toList (pyLower t))

/-- Modelled from the spec: the contact-info pass — any contact token occurs
in the lower-cased text. -/
def has_contact (t : String) : Bool :=
  contact_tokens.any (fun k => subOcc k.toList (pyLower t))

/-- Modelled from the spec: the flat bonus added when contact info is
present (+10 in the implemented variant; the spec allows +10 to +12). -/
def contact_flat_bonus : ℚ := 10

/-- Modelled from the spec: how many verbs of the fixed list occur in the
lower-cased text (each list entry counted once however often it occurs). -/
def verb_count (t : String) : Nat :=
  (action_verbs.filter (fun v => subOcc v.toList (pyLower t))).length

/-- Modelled from the spec: `min(count * 2.0, 10.0)` — the capped
action-verb bonus. -/
def verb_bonus (t : String) : ℚ := min ((verb_count t : ℚ) * 2) 10

/-- Modelled from the spec: the additive raw score before clamping —
base 50, 5.0 per section keyword, the word-count band adjustment, the flat
contact bonus and the capped verb bonus. -/
def raw_score (t : String) : ℚ :=
  50 + ((sections_of t).length : ℚ) * 5 + band_bonus (word_count t)
    + (if has_contact t then contact_flat_bonus else 0) + verb_bonus t

/-- Modelled from the spec: the heuristic resume scorer (§4.1) — the local
fallback whose body is absent from the staged sources.  Pure function of the
text; the final score is clamped to [0, 100] and rounded to one decimal. -/
def heuristic_score (t : String) : ScoreResult :=
  { score := clamp_round (raw_score t)
    sections_found := sections_of t
    word_count := word_count t
    has_contact_info := has_contact t
    note := "rule-based fallback" }

/-! ## The Affinda-based ATS scorer (src/backend/main.py lines 76–176)

`calculate_ats_score_from_affinda` takes the JSON dict the Affinda API
returned (or an error dict) and computes a score from the parsed fields.
The dict is modelled as a structure holding exactly the fields the function
reads; a missing key is `none`/`[]`, and Python truthiness of a string value
is "present and non-empty". -/

/-- One entry of the Affinda `skills` array (only `name` is read). -/
structure Skill where
  name : Option String
deriving DecidableEq

/-- One entry of the Affinda `workExperience` array (the fields read:
`jobTitle`, `organization`, `dates.rawText`). -/
structure WorkExp where
  jobTitle : Option String
  organization : Option String
  datesRawText : Option String
deriving DecidableEq

/-- One entry of the Affinda `education` array (the fields read:
`accreditation.education`, `organization`). -/
structure Edu where
  accreditationEducation : Option String
  organization : Option String
deriving DecidableEq

/-- The Affinda response dict as `calculate_ats_score_from_affinda` reads it.
`hasError` is `"error" in affinda_data`; `errorDetails` the error message the
dict carries (the error dicts this program builds are `{"error": msg}`). -/
structure AffindaData where
  hasError : Bool
  errorDetails : String
  education : List Edu
  workExperience : List WorkExp
  skills : List Skill
  summary : Option String
  objective : Option String
  emails : List String
  phoneNumbers : List String
  websites : List String
  totalYearsExperience : ℤ
deriving DecidableEq

/-- Python truthiness of `data.get(key)` for a string-valued key: the key is
present and its value non-empty. -/
def optTruthy : Option String → Bool
  | none => false
  | some s => s != ""

/-- `skill.get("name")` kept only when truthy (the list comprehensions filter
on `if skill.get("name")`). -/
def truthyName : Option String → Option String
  | none => none
  | some s => if s = "" then none else some s

/-- The `skills_analysis` object of the result dict. -/
structure SkillsAnalysis where
  total_skills : Nat
  top_skills : List String
  skills_found : List String
deriving DecidableEq

/-- One entry of `recent_positions`. -/
structure RecentPosition where
  title : String
  company : String
  duration : String
deriving DecidableEq

/-- The `experience_analysis` object of the result dict. -/
structure ExperienceAnalysis where
  total_years : ℤ
  job_count : Nat
  recent_positions : List RecentPosition
deriving DecidableEq

/-- The `education_analysis` object of the result dict. -/
structure EducationAnalysis where
  degree_count : Nat
  highest_degree : Option String
  institutions : List String
deriving DecidableEq

/-- The dict `calculate_ats_score_from_affinda` returns.  The error branch
returns a dict without the three analysis objects (`none` here) and with a
`details` key; the normal branch the reverse. -/
structure AtsResult where
  score : ℚ
  sections_found : List String
  has_contact_info : Bool
  note : String
  details : Option String
  skills_analysis : Option SkillsAnalysis
  experience_analysis : Option ExperienceAnalysis
  education_analysis : Option EducationAnalysis
deriving DecidableEq

/-- The additive score of the non-error branch before the final clamp:
base 50, then the education, experience, skills, summary, contact,
experience-years and skills-density bonuses, each capped as in the source. -/
def affinda_raw_score (d : AffindaData) : ℚ :=
  50
  + (if d.education ≠ [] then min ((d.education.length : ℚ) * 5) 20 else 0)
  + (if d.workExperience ≠ [] then min ((d.workExperience.length : ℚ) * 5) 25 else 0)
  + (if d.skills ≠ [] then min ((d.skills.length : ℚ) * 1.5) 15 else 0)
  + (if optTruthy d.summary || optTruthy d.objective then 10 else 0)
  + (if d.emails ≠ [] ∨ d.phoneNumbers ≠ [] ∨ d.websites ≠ [] then 10 else 0)
  + (if 2 ≤ d.totalYearsExperience then min (d.totalYearsExperience : ℚ) 5 else 0)
  + (if 10 ≤ d.skills.length then 5 else if 5 ≤ d.skills.length then 2 else 0)

/-- `sections_found` of the non-error branch: the four appends in source
order, each guarded by the truthiness of its field. -/
def affinda_sections (d : AffindaData) : List String :=
  (if d.education ≠ [] then ["education"] else [])
  ++ (if d.workExperience ≠ [] then ["experience"] else [])
  ++ (if d.skills ≠ [] then ["skills"] else [])
  ++ (if optTruthy d.summary || optTruthy d.objective then ["summary"] else [])

/-- `bool(data.get("emails") or data.get("phoneNumbers") or data.get("websites"))`. -/
def affinda_has_contact (d : AffindaData) : Bool :=
  !d.emails.isEmpty || !d.phoneNumbers.isEmpty || !d.websites.isEmpty

/-- src/backend/main.py lines 76–176: `calculate_ats_score_from_affinda`. -/
def calculate_ats_score_from_affinda (d : AffindaData) : AtsResult :=
  if d.hasError then
    { score := 0
      sections_found := []
      has_contact_info := false
      note := "Affinda parsing failed"
      details := some d.errorDetails
      skills_analysis := none
      experience_analysis := none
      education_analysis := none }
  else
    { score := clamp_round (affinda_raw_score d)
      sections_found := affinda_sections d
      has_contact_info := affinda_has_contact d
      note := "ATS scoring based on Affinda parsed data"
      details := none
      skills_analysis := some
        { total_skills := d.skills.length
          top_skills := (d.skills.take 10).filterMap (fun s => truthyName s.name)
          skills_found := d.skills.filterMap (fun s => truthyName s.name) }
      experience_analysis := some
        { total_years := d.totalYearsExperience
          job_count := d.workExperience.length
          recent_positions := (d.workExperience.take 3).map (fun e =>
            { title := e.jobTitle.getD "Unknown"
              company := e.organization.getD "Unknown"
              duration := e.datesRawText.getD "Unknown" }) }
      education_analysis := some
        { degree_count := d.education.length
          highest_degree := d.education.head?.bind (fun e => e.accreditationEducation)
          institutions := d.education.filterMap (fun e => truthyName e.organization) } }

/-! ## Provider calls and PDF extraction

The HTTP and file effects are modelled by passing in the outcome of each
external interaction: `Except.error e` for `requests.post` (or
`pdfplumber.open`) raising the exception message `e`, `Except.ok` for a
response.  A function that lets an exception escape to its caller returns
`Except.error`; one that catches everything returns a plain value. -/

/-- A `requests` response as these functions read it: status code, body
text, parsed JSON. -/
structure HttpResp (α : Type) where
  status_code : Nat
  text : String
  json : α
deriving DecidableEq

/-- `true` iff the modelled call ended in a raised exception. -/
def isRaised {ε α : Type} : Except ε α → Bool
  | .error _ => true
  | .ok _ => false

/-- The `{"error": msg}` dict `parse_resume_with_affinda` builds on every
failure path. -/
def affindaError (msg : String) : AffindaData :=
  { hasError := true
    errorDetails := msg
    education := []
    workExperience := []
    skills := []
    summary := none
    objective := none
    emails := []
    phoneNumbers := []
    websites := []
    totalYearsExperience := 0 }

/-- src/backend/main.py lines 55–73: `parse_resume_with_affinda`.
`keyConfigured` is whether `AFFINDA_API_KEY` is set; `post` the outcome of
`requests.post`.  Every failure (missing key, raised exception, non-201
status) is caught and returned as an error dict — the result type carries no
exception. -/
def parse_resume_with_affinda (keyConfigured : Bool)
    (post : Except String (HttpResp AffindaData)) : AffindaData :=
  if !keyConfigured then affindaError "Affinda API key not configured"
  else
    match post with
    | .error e => affindaError e
    | .ok resp =>
      if resp.status_code = 201 then resp.json
      else affindaError ("Affinda API error " ++ toString resp.status_code
        ++ ": " ++ resp.text)

/-- src/backend/api/parser.py lines 31–42: `getats_score`.  No try/except:
a missing file and a non-200 status both `raise` (modelled as
`Except.error`), and a raised exception from the post call propagates.  The
body after `data = response.json()` is truncated in the source, so success
is modelled as returning the parsed payload. -/
def getats_score {α : Type} (fileExists : Bool)
    (post : Except String (HttpResp α)) : Except String α :=
  if !fileExists then .error "FileNotFoundError: path does not exist"
  else
    match post with
    | .error e => .error e
    | .ok resp =>
      if resp.status_code ≠ 200 then
        .error ("Api request failed:" ++ toString resp.status_code ++ resp.text)
      else .ok resp.json

/-- Python `str.strip()`: drop whitespace from both ends. -/
def pyStrip (s : String) : String :=
  String.mk (((s.toList.dropWhile Char.isWhitespace).reverse.dropWhile
    Char.isWhitespace).reverse)

/-- The page loop shared by both extractors: for each page,
`page.extract_text()` returned `some s` or `None`; non-`None` pages are
concatenated with a newline after each. -/
def concatPages (pages : List (Option String)) : String :=
  pages.foldl (fun acc p => match p with
    | some s => acc ++ s ++ "\n"
    | none => acc) ""

/-- src/backend/main.py lines 42–52: `extract_text_from_pdf`.  The whole
page loop sits in a try/except that swallows every exception, keeping
whatever text had accumulated; `failAfter = some i` models an exception
raised after `i` pages were processed (`some 0`: `pdfplumber.open` itself
raised), `none` a clean run.  The function always returns a plain string. -/
def extract_text_from_pdf (pages : List (Option String))
    (failAfter : Option Nat) : String :=
  let processed := match failAfter with
    | none => pages
    | some i => pages.take i
  pyStrip (concatPages processed)

/-- src/backend/api/parser.py lines 13–29: `extract_textpdf`.  No
try/except anywhere: a raise from `pdfplumber.open` propagates, and when the
extracted text strips to fewer than 80 characters the OCR escalation runs —
whose loop body calls `pytesseract.imgage_to_string`, an attribute that does
not exist, so it raises `AttributeError` as soon as `convert_from_path`
yields at least one image (`ocrImages` many). -/
def extract_textpdf (opened : Except String (List (Option String)))
    (ocrImages : Nat) : Except String (String × Bool) :=
  match opened with
  | .error e => .error e
  | .ok pages =>
    let text := concatPages pages
    if (pyStrip text).length < 80 then
      if ocrImages = 0 then .ok ("", true)
      else .error "AttributeError: module pytesseract has no attribute imgage_to_string"
    else .ok (text, false)

/-! ## Claim theorems -/

/-- C1: for every input, the score `calculate_ats_score_from_affinda`
returns lies in the closed range [0, 100] and is an integer number of
tenths — one decimal digit of precision. -/
theorem ats_score_in_range_tenths (d : AffindaData) :
    0 ≤ (calculate_ats_score_from_affinda d).score ∧
    (calculate_ats_score_from_affinda d).score ≤ 100 ∧
    ∃ n : ℤ, (calculate_ats_score_from_affinda d).score = (n : ℚ) / 10 := by
  by_cases h : d.hasError = true
  · simp only [calculate_ats_score_from_affinda, h, if_true]
    exact ⟨le_refl 0, by norm_num, 0, by norm_num⟩
  · simp only [calculate_ats_score_from_affinda, h, if_false]
    exact ⟨clamp_round_nonneg _, clamp_round_le_100 _, clamp_round_tenths _⟩

/-- C10: an input dict carrying an `"error"` key short-circuits the scorer:
score 0 (not the base 50), empty sections, no contact info, the note
"Affinda parsing failed", the input kept under `details`, and none of the
bonus rules evaluated (no analysis objects are built). -/
theorem ats_error_branch (d : AffindaData) (h : d.hasError = true) :
    calculate_ats_score_from_affinda d =
      { score := 0
        sections_found := []
        has_contact_info := false
        note := "Affinda parsing failed"
        details := some d.errorDetails
        skills_analysis := none
        experience_analysis := none
        education_analysis := none } := by
  simp [calculate_ats_score_from_affinda, h]

/-- Witness for C10 at the concrete error dict `{"error": "boom"}`. -/
theorem ats_error_branch_witness :
    calculate_ats_score_from_affinda (affindaError "boom") =
      { score := 0
        sections_found := []
        has_contact_info := false
        note := "Affinda parsing failed"
        details := some "boom"
        skills_analysis := none
        experience_analysis := none
        education_analysis := none } :=
  ats_error_branch (affindaError "boom") rfl

/-- C7: the heuristic scorer is total — for every string input, the empty
string included, it yields a `ScoreResult` (it is a pure Lean function: no
exception, no I/O, no side effect), and that result's score is in range. -/
theorem heuristic_total (t : String) :
    ∃ r : ScoreResult, heuristic_score t = r ∧ 0 ≤ r.score ∧ r.score ≤ 100 :=
  ⟨heuristic_score t, rfl, clamp_round_nonneg _, clamp_round_le_100 _⟩

/-- C8 counterexample: a non-200 response to the provider call
`getats_score` is not caught — the function itself raises, so the failure
propagates to the caller as a raised exception. -/
theorem getats_score_raises :
    isRaised (getats_score true (Except.ok
      ({ status_code := 500, text := "Internal Server Error", json := (0 : Nat) }
        : HttpResp Nat))) = true := rfl

/-- C8 amended: `parse_resume_with_affinda` catches every provider failure
(missing key, raised exception, non-201 status) and represents it as an
error dict, never raising; `getats_score` in src/backend/api/parser.py
instead raises on a missing file and on any non-200 response. -/
theorem provider_failure_handling (k : Bool)
    (post post2 : Except String (HttpResp AffindaData))
    (r : HttpResp AffindaData)
    (h : k = false ∨ (∃ e, post = Except.error e) ∨
      (∃ rr, post = Except.ok rr ∧ rr.status_code ≠ 201))
    (h2 : r.status_code ≠ 200) :
    (parse_resume_with_affinda k post).hasError = true ∧
    isRaised (getats_score false post2) = true ∧
    isRaised (getats_score true (Except.ok r)) = true := by
  refine ⟨?_, rfl, ?_⟩
  · unfold parse_resume_with_affinda
    rcases h with rfl | ⟨e, rfl⟩ | ⟨rr, rfl, hr⟩
    · rfl
    · cases k <;> rfl
    · cases k
      · rfl
      · simp [hr, affindaError]
  · simp [getats_score, isRaised, h2]

/-- Witness for C8's amended statement at concrete failing calls: a timed-out
Affinda post, a missing file, and a 500 response. -/
theorem provider_failure_handling_witness :
    (parse_resume_with_affinda true (Except.error "ReadTimeout")).hasError = true ∧
    isRaised (getats_score false (Except.error "unused"
      : Except String (HttpResp AffindaData))) = true ∧
    isRaised (getats_score true (Except.ok
      ({ status_code := 500, text := "oops", json := affindaError "" }
        : HttpResp AffindaData))) = true :=
  provider_failure_handling true _ _ _
    (Or.inr (Or.inl ⟨"ReadTimeout", rfl⟩)) (by decide)

/-- C9 counterexample: a failure of `pdfplumber.open` inside
`extract_textpdf` (src/backend/api/parser.py) is not swallowed — there is no
try/except, so the exception reaches the caller. -/
theorem extract_textpdf_raises :
    isRaised (extract_textpdf (Except.error "PDFSyntaxError: not a PDF") 0)
      = true := rfl

/-- C9 amended: `extract_text_from_pdf` (src/backend/main.py) swallows every
extraction failure — an immediate failure yields the empty string, a failure
after `i` pages yields the text of those pages — and always returns a plain
string; `extract_textpdf` (src/backend/api/parser.py) instead propagates an
open failure unchanged to its caller. -/
theorem extraction_failure_handling (pages : List (Option String)) (i : Nat)
    (e : String) :
    extract_text_from_pdf pages (some 0) = "" ∧
    extract_text_from_pdf pages (some i) =
      pyStrip (concatPages (pages.take i)) ∧
    extract_text_from_pdf pages none = pyStrip (concatPages pages) ∧
    extract_textpdf (Except.error e) i = Except.error e := by
  exact ⟨rfl, rfl, rfl, rfl⟩

/-- The boolean matcher the scorer runs agrees with genuine substring
presence, so filtering by it filters by `IsSubstr`. -/
theorem sections_of_eq (t : String) :
    sections_of t =
      section_keywords.filter (fun k => decide (IsSubstr k.toList (pyLower t))) := by
  unfold sections_of
  exact (List.filter_congr (fun k _ => decide_IsSubstr k.toList (pyLower t))).symm

/-- C3: the section pass iterates the fixed ordered 8-keyword list, keeps
exactly the keywords genuinely occurring as substrings of the lower-cased
text, and the raw score carries a flat 5.0 for each keyword kept. -/
theorem section_pass_correct (t : String) :
    (heuristic_score t).sections_found =
      section_keywords.filter (fun k => decide (IsSubstr k.toList (pyLower t))) ∧
    raw_score t =
      50 + 5 * (((heuristic_score t).sections_found).length : ℚ)
        + band_bonus (word_count t)
        + (if (heuristic_score t).has_contact_info then contact_flat_bonus else 0)
        + verb_bonus t := by
  constructor
  · exact sections_of_eq t
  · show raw_score t = 50 + 5 * ((sections_of t).length : ℚ)
      + band_bonus (word_count t)
      + (if has_contact t then contact_flat_bonus else 0) + verb_bonus t
    unfold raw_score
    ring

/-- C4: the contact pass reports contact info exactly when one of the fixed
tokens occurs in the lower-cased text; when it does, one flat bonus in
[+10, +12] (here +10) enters the raw score, and otherwise nothing does. -/
theorem contact_pass_correct (t : String) :
    ((heuristic_score t).has_contact_info = true ↔
      ∃ k ∈ contact_tokens, IsSubstr k.toList (pyLower t)) ∧
    10 ≤ contact_flat_bonus ∧ contact_flat_bonus ≤ 12 ∧
    raw_score t =
      50 + ((sections_of t).length : ℚ) * 5 + band_bonus (word_count t)
        + (if (heuristic_score t).has_contact_info then contact_flat_bonus else 0)
        + verb_bonus t := by
  refine ⟨?_, by norm_num [contact_flat_bonus], by norm_num [contact_flat_bonus], rfl⟩
  show has_contact t = true ↔ _
  unfold has_contact
  rw [List.any_eq_true]
  constructor
  · rintro ⟨k, hk, hocc⟩
    exact ⟨k, hk, (subOcc_iff k.toList (pyLower t)).mp hocc⟩
  · rintro ⟨k, hk, hsub⟩
    exact ⟨k, hk, (subOcc_iff k.toList (pyLower t)).mpr hsub⟩

/-- The verb counter counts the fixed list's entries present in the text. -/
theorem verb_count_eq (t : String) :
    verb_count t =
      action_verbs.countP (fun v => decide (IsSubstr v.toList (pyLower t))) := by
  unfold verb_count
  rw [List.countP_eq_length_filter]
  exact congrArg List.length
    (List.filter_congr (fun v _ => decide_IsSubstr v.toList (pyLower t))).symm

/-- C5: the action-verb bonus is `min(count * 2.0, 10.0)` for the count of
fixed-list verbs genuinely occurring in the text, is monotone in that count
(repeats of one verb change nothing, since each list entry counts once), and
never exceeds 10. -/
theorem verb_bonus_correct (t1 t2 : String)
    (h : verb_count t1 ≤ verb_count t2) :
    verb_bonus t1 = min (((action_verbs.countP
        (fun v => decide (IsSubstr v.toList (pyLower t1)))) : ℚ) * 2) 10 ∧
    verb_bonus t1 ≤ verb_bonus t2 ∧ verb_bonus t2 ≤ 10 := by
  refine ⟨?_, ?_, min_le_right _ _⟩
  · unfold verb_bonus
    rw [verb_count_eq]
  · unfold verb_bonus
    refine min_le_min ?_ le_rfl
    have hc : (verb_count t1 : ℚ) ≤ (verb_count t2 : ℚ) := by exact_mod_cast h
    linarith

/-- Witness for C5 at concrete texts: one matched verb against two (with the
two-verb text also repeating nothing but adding filler words). -/
theorem verb_bonus_correct_witness :
    verb_bonus "led" = min (((action_verbs.countP
        (fun v => decide (IsSubstr v.toList (pyLower "led")))) : ℚ) * 2) 10 ∧
    verb_bonus "led" ≤ verb_bonus "led the team and managed it" ∧
    verb_bonus "led the team and managed it" ≤ 10 :=
  verb_bonus_correct "led" "led the team and managed it" (by decide)

/-- C6: `sections_found` never holds a duplicate, is ordered as the fixed
rule list orders its keywords (it is a sublist of that list), and every
entry genuinely occurs in the lower-cased input. -/
theorem sections_found_invariant (t : String) :
    (heuristic_score t).sections_found.Nodup ∧
    (heuristic_score t).sections_found.Sublist section_keywords ∧
    ((heuristic_score t).sections_found.all
      (fun k => decide (IsSubstr k.toList (pyLower t)))) = true := by
  refine ⟨?_, ?_, ?_⟩
  · show (sections_of t).Nodup
    exact List.Nodup.filter _ (by decide)
  · show (sections_of t).Sublist section_keywords
    exact List.filter_sublist _
  · show ((sections_of t).all _) = true
    rw [List.all_eq_true]
    intro k hk
    have hmem := List.mem_filter.mp hk
    rw [decide_IsSubstr]
    exact hmem.2

/-- Lowering a whitespace character keeps it whitespace (it is unchanged). -/
theorem ws_toLower (c : Char) (h : c.isWhitespace = true) :
    c.toLower.isWhitespace = true := by
  have h4 : ((c = ' ' ∨ c = '\t') ∨ c = '\x0d') ∨ c = '\n' := by
    simpa [Char.isWhitespace] using h
  rcases h4 with ((rfl | rfl) | rfl) | rfl <;> decide

/-- The word counter yields zero on an all-whitespace character list. -/
theorem wcAux_ws (l : List Char) :
    ∀ b : Bool, (∀ c ∈ l, c.isWhitespace = true) → wcAux l b = 0 := by
  induction l with
  | nil => intro b _; rfl
  | cons c t ih =>
    intro b hl
    have hc : c.isWhitespace = true := hl c (by simp)
    simp only [wcAux, hc, if_true]
    exact ih false (fun x hx => hl x (by simp [hx]))

/-- C2: on empty or whitespace-only input the heuristic scorer returns
exactly the base score 50.0, an empty `sections_found`, `word_count` 0 and
no contact info. -/
theorem heuristic_vacuous (t : String)
    (h : t.toList.all Char.isWhitespace = true) :
    heuristic_score t =
      { score := 50
        sections_found := []
        word_count := 0
        has_contact_info := false
        note := "rule-based fallback" } := by
  have hws : ∀ c ∈ t.toList, c.isWhitespace = true := List.all_eq_true.mp h
  have hlow : ∀ c ∈ pyLower t, c.isWhitespace = true := by
    intro c hc
    rcases List.mem_map.mp hc with ⟨c', hc', rfl⟩
    exact ws_toLower c' (hws c' hc')
  have hsec : sections_of t = [] := by
    unfold sections_of
    rw [List.filter_eq_nil_iff]
    intro k hk
    simp only [Bool.not_eq_true]
    exact no_occ_of_ws _ _ hlow (by fin_cases hk <;> decide)
  have hcon : has_contact t = false := by
    rcases hb : has_contact t with _ | _
    · rfl
    · exfalso
      unfold has_contact at hb
      rcases List.any_eq_true.mp hb with ⟨k, hk, hocc⟩
      have hf : subOcc k.toList (pyLower t) = false :=
        no_occ_of_ws _ _ hlow (by fin_cases hk <;> decide)
      rw [hf] at hocc
      simp at hocc
  have hverb : verb_count t = 0 := by
    unfold verb_count
    rw [List.length_eq_zero, List.filter_eq_nil_iff]
    intro v hv
    simp only [Bool.not_eq_true]
    exact no_occ_of_ws _ _ hlow (by fin_cases hv <;> decide)
  have hwc : word_count t = 0 := wcAux_ws t.toList false hws
  have hraw : raw_score t = 50 := by
    unfold raw_score verb_bonus
    rw [hsec, hcon, hwc, hverb]
    norm_num [band_bonus, min_def]
  have hscore : clamp_round (raw_score t) = 50 := by
    rw [hraw]
    unfold clamp_round
    rw [round1_int 500 50 (by norm_num)]
    norm_num [min_def, max_def]
  simp only [heuristic_score, ScoreResult.mk.injEq]
  exact ⟨hscore, hsec, hwc, hcon, trivial⟩

/-- Witness for C2 at the empty string. -/
theorem heuristic_vacuous_witness :
    heuristic_score "" =
      { score := 50
        sections_found := []
        word_count := 0
        has_contact_info := false
        note := "rule-based fallback" } :=
  heuristic_vacuous "" (by decide)
